import Mathlib

/-!
Shallow embedding of the Kea DHCP performance-monitoring duration records
(`src/hooks/dhcp/perfmon/monitored_duration.cc`,
`src/hooks/dhcp/perfmon/monitored_duration_store.cc`) and of the statistics
manager (`src/lib/stats/stats_mgr.cc`, `src/lib/stats/observation.h`).

Modelling conventions:
* machine integers become `Nat`/`Int` (no arithmetic here ever overflows the
  C++ types on the inputs considered);
* `boost::posix_time::time_duration` and `ptime` values become `Int`
  microsecond counts; the special values `pos_infin` / `neg_infin` used to
  initialise interval minima/maxima become `none` of an `Option Int`;
* a C++ method that can throw becomes a function returning `Except KeaError`
  (or a pair of a result and the unchanged receiver, when the object
  survives the throw);
* heap-allocated records behind `boost::shared_ptr` become cells of an
  explicit heap (`Heap`), a pointer being an index into it, so that the
  copy-on-retrieval behaviour of the store is visible.
-/

namespace Kea

/-- Address family constant `AF_INET` (Linux value 2). -/
def AF_INET : Nat := 2

/-- Address family constant `AF_INET6` (Linux value 10). -/
def AF_INET6 : Nat := 10

/-- DHCPv4 message type constant `DHCP_NOTYPE`. -/
def DHCP_NOTYPE : Nat := 0

/-- DHCPv4 message type constant `DHCPDISCOVER`. -/
def DHCPDISCOVER : Nat := 1

/-- DHCPv4 message type constant `DHCPOFFER`. -/
def DHCPOFFER : Nat := 2

/-- DHCPv4 message type constant `DHCPREQUEST`. -/
def DHCPREQUEST : Nat := 3

/-- DHCPv4 message type constant `DHCPACK`. -/
def DHCPACK : Nat := 5

/-- DHCPv4 message type constant `DHCPNAK`. -/
def DHCPNAK : Nat := 6

/-- DHCPv4 message type constant `DHCPINFORM`. -/
def DHCPINFORM : Nat := 8

/-- DHCPv6 message type constant `DHCPV6_NOTYPE`. -/
def DHCPV6_NOTYPE : Nat := 0

/-- DHCPv6 message type constant `DHCPV6_SOLICIT`. -/
def DHCPV6_SOLICIT : Nat := 1

/-- DHCPv6 message type constant `DHCPV6_ADVERTISE`. -/
def DHCPV6_ADVERTISE : Nat := 2

/-- DHCPv6 message type constant `DHCPV6_REQUEST`. -/
def DHCPV6_REQUEST : Nat := 3

/-- DHCPv6 message type constant `DHCPV6_CONFIRM`. -/
def DHCPV6_CONFIRM : Nat := 4

/-- DHCPv6 message type constant `DHCPV6_RENEW`. -/
def DHCPV6_RENEW : Nat := 5

/-- DHCPv6 message type constant `DHCPV6_REBIND`. -/
def DHCPV6_REBIND : Nat := 6

/-- DHCPv6 message type constant `DHCPV6_REPLY`. -/
def DHCPV6_REPLY : Nat := 7

/-- Control-channel result code `CONTROL_RESULT_SUCCESS`. -/
def CONTROL_RESULT_SUCCESS : Int := 0

/-- Control-channel result code `CONTROL_RESULT_ERROR`. -/
def CONTROL_RESULT_ERROR : Int := 1

/-- Exception taxonomy used by the embedded code: `BadValue`,
`DuplicateDurationKey`, `InvalidOperation`, `NotImplemented` are isc
exception classes; `typeError` stands for `isc::data::TypeError` thrown by
the JSON `Element` accessors. -/
inductive KeaError where
  | badValue
  | duplicateDurationKey
  | invalidOperation
  | notImplemented
  | typeError
deriving Repr, DecidableEq

/-- Lexicographic comparison of character lists, the semantics of
`std::string::operator<` (`char` compare first, shorter run is smaller on a
tie). -/
def charListLt : List Char → List Char → Bool
  | [], [] => false
  | [], _ :: _ => true
  | _ :: _, [] => false
  | a :: as, b :: bs => Nat.blt a.toNat b.toNat || (a == b && charListLt as bs)

/-- Lexicographic `std::string` comparison on the underlying characters. -/
def strLt (a b : String) : Bool := charListLt a.data b.data

/-- DurationKey data members (`monitored_duration.h` members `family_`,
`query_type_`, `response_type_`, `start_event_label_`, `end_event_label_`,
`subnet_id_`). -/
structure DurationKey where
  family : Nat
  queryType : Nat
  responseType : Nat
  startEventLabel : String
  endEventLabel : String
  subnetId : Nat
deriving Repr, DecidableEq

/-- DurationKey::operator== from `monitored_duration.cc` lines 167-177:
conjunction of member equalities. -/
def DurationKey.eqOp (a other : DurationKey) : Bool :=
  (a.family == other.family) &&
  (a.queryType == other.queryType) &&
  (a.responseType == other.responseType) &&
  (a.startEventLabel == other.startEventLabel) &&
  (a.endEventLabel == other.endEventLabel) &&
  (a.subnetId == other.subnetId)

/-- DurationKey::operator< from `monitored_duration.cc` lines 184-194:
a plain disjunction of member comparisons, with no equality guards on the
earlier members. -/
def DurationKey.ltOp (a other : DurationKey) : Bool :=
  Nat.blt a.family other.family ||
  Nat.blt a.queryType other.queryType ||
  Nat.blt a.responseType other.responseType ||
  strLt a.startEventLabel other.startEventLabel ||
  strLt a.endEventLabel other.endEventLabel ||
  Nat.blt a.subnetId other.subnetId

/-- DurationKey::validateMessagePair from `monitored_duration.cc` lines
73-148: per query type, either an allowed response type returns, or
BadValue is thrown; an unsupported query type throws BadValue.  The v6
branch is taken for every family other than `AF_INET` (the constructor has
already restricted the family). -/
def DurationKey.validateMessagePair (family queryType responseType : Nat) :
    Except KeaError Unit :=
  if family = AF_INET then
    if queryType = DHCP_NOTYPE then
      if responseType = DHCP_NOTYPE ∨ responseType = DHCPOFFER ∨
         responseType = DHCPACK ∨ responseType = DHCPNAK then
        Except.ok ()
      else
        Except.error KeaError.badValue
    else if queryType = DHCPDISCOVER then
      if responseType = DHCP_NOTYPE ∨ responseType = DHCPOFFER ∨
         responseType = DHCPNAK then
        Except.ok ()
      else
        Except.error KeaError.badValue
    else if queryType = DHCPREQUEST then
      if responseType = DHCP_NOTYPE ∨ responseType = DHCPACK ∨
         responseType = DHCPNAK then
        Except.ok ()
      else
        Except.error KeaError.badValue
    else if queryType = DHCPINFORM then
      if responseType = DHCP_NOTYPE ∨ responseType = DHCPACK then
        Except.ok ()
      else
        Except.error KeaError.badValue
    else
      Except.error KeaError.badValue
  else
    if queryType = DHCPV6_NOTYPE ∨ queryType = DHCPV6_SOLICIT then
      if responseType = DHCPV6_NOTYPE ∨ responseType = DHCPV6_ADVERTISE ∨
         responseType = DHCPV6_REPLY then
        Except.ok ()
      else
        Except.error KeaError.badValue
    else if queryType = DHCPV6_REQUEST ∨ queryType = DHCPV6_RENEW ∨
            queryType = DHCPV6_REBIND ∨ queryType = DHCPV6_CONFIRM then
      if responseType = DHCPV6_NOTYPE ∨ responseType = DHCPV6_REPLY then
        Except.ok ()
      else
        Except.error KeaError.badValue
    else
      Except.error KeaError.badValue

/-- DurationKey constructor from `monitored_duration.cc` lines 54-71:
stores the six members, throws BadValue unless the family is `AF_INET` or
`AF_INET6`, then validates the message pair. -/
def DurationKey.make (family queryType responseType : Nat)
    (startEventLabel endEventLabel : String) (subnetId : Nat) :
    Except KeaError DurationKey :=
  if family ≠ AF_INET ∧ family ≠ AF_INET6 then
    Except.error KeaError.badValue
  else
    match DurationKey.validateMessagePair family queryType responseType with
    | Except.error e => Except.error e
    | Except.ok _ =>
        Except.ok ⟨family, queryType, responseType,
                   startEventLabel, endEventLabel, subnetId⟩

/-- DurationDataInterval data members (`monitored_duration.h`): start time,
occurrence count, minimum, maximum and total duration.  Times and durations
are microsecond counts; `minDuration = none` models the initial
`pos_infin`, `maxDuration = none` models the initial `neg_infin`. -/
structure DurationDataInterval where
  startTime : Int
  occurrences : Nat
  minDuration : Option Int
  maxDuration : Option Int
  totalDuration : Int
deriving Repr, DecidableEq

/-- DurationDataInterval constructor from `monitored_duration.cc` lines
23-27: zero occurrences, min at `pos_infin`, max at `neg_infin`, zero
total. -/
def DurationDataInterval.init (startTime : Int) : DurationDataInterval :=
  ⟨startTime, 0, none, none, 0⟩

/-- DurationDataInterval::addDuration from `monitored_duration.cc` lines
29-41: bump the count, lower the min, raise the max, add to the total.
Any finite duration is below `pos_infin` (`none` min) and above
`neg_infin` (`none` max). -/
def DurationDataInterval.addDuration (i : DurationDataInterval)
    (duration : Int) : DurationDataInterval :=
  { i with
    occurrences := i.occurrences + 1
    minDuration :=
      match i.minDuration with
      | none => some duration
      | some m => if duration < m then some duration else some m
    maxDuration :=
      match i.maxDuration with
      | none => some duration
      | some m => if duration > m then some duration else some m
    totalDuration := i.totalDuration + duration }

/-- DurationDataInterval::getAverageDuration from `monitored_duration.cc`
lines 43-50: zero when there are no occurrences, else the total divided by
the count (C++ integer division truncates toward zero, hence `Int.tdiv`). -/
def DurationDataInterval.getAverageDuration (i : DurationDataInterval) : Int :=
  if i.occurrences = 0 then 0
  else Int.tdiv i.totalDuration (Int.ofNat i.occurrences)

/-- MonitoredDuration data members (`monitored_duration.h`): the key (the
C++ class inherits from DurationKey), the interval duration and the two
optional interval slots. -/
structure MonitoredDuration where
  key : DurationKey
  intervalDuration : Int
  currentInterval : Option DurationDataInterval
  previousInterval : Option DurationDataInterval
deriving Repr, DecidableEq

/-- MonitoredDuration constructor from `monitored_duration.cc` lines
216-226: copies the key, throws BadValue unless the interval duration is
strictly positive, starts with no intervals. -/
def MonitoredDuration.make (key : DurationKey) (intervalDuration : Int) :
    Except KeaError MonitoredDuration :=
  if intervalDuration ≤ 0 then
    Except.error KeaError.badValue
  else
    Except.ok ⟨key, intervalDuration, none, none⟩

/-- MonitoredDuration::addSample from `monitored_duration.cc` lines
228-242, with the wall clock `now` passed explicitly: open a current
interval at `now` if none exists; rotate (previous ← current, fresh current
at `now`, report due) when `now - current.start` strictly exceeds the
interval duration; then add the sample to the current interval.  Returns
the updated record and the `do_report` flag. -/
def MonitoredDuration.addSample (md : MonitoredDuration)
    (sample now : Int) : MonitoredDuration × Bool :=
  match md.currentInterval with
  | none =>
      let fresh := (DurationDataInterval.init now).addDuration sample
      ({ md with currentInterval := some fresh }, false)
  | some ci =>
      if now - ci.startTime > md.intervalDuration then
        let fresh := (DurationDataInterval.init now).addDuration sample
        ({ md with previousInterval := some ci, currentInterval := some fresh },
         true)
      else
        ({ md with currentInterval := some (ci.addDuration sample) }, false)

/-- MonitoredDuration::clear from `monitored_duration.cc` lines 244-248:
resets both interval slots. -/
def MonitoredDuration.clearIntervals (md : MonitoredDuration) :
    MonitoredDuration :=
  { md with currentInterval := none, previousInterval := none }

/-- Response types the claim allows for each DHCPv4 query type monitored. -/
def v4PairOk (qt rt : Nat) : Prop :=
  (qt = DHCP_NOTYPE ∧
    (rt = DHCP_NOTYPE ∨ rt = DHCPOFFER ∨ rt = DHCPACK ∨ rt = DHCPNAK)) ∨
  (qt = DHCPDISCOVER ∧
    (rt = DHCP_NOTYPE ∨ rt = DHCPOFFER ∨ rt = DHCPNAK)) ∨
  (qt = DHCPREQUEST ∧
    (rt = DHCP_NOTYPE ∨ rt = DHCPACK ∨ rt = DHCPNAK)) ∨
  (qt = DHCPINFORM ∧
    (rt = DHCP_NOTYPE ∨ rt = DHCPACK))

/-- Response types the claim allows for each DHCPv6 query type monitored. -/
def v6PairOk (qt rt : Nat) : Prop :=
  ((qt = DHCPV6_NOTYPE ∨ qt = DHCPV6_SOLICIT) ∧
    (rt = DHCPV6_NOTYPE ∨ rt = DHCPV6_ADVERTISE ∨ rt = DHCPV6_REPLY)) ∨
  ((qt = DHCPV6_REQUEST ∨ qt = DHCPV6_RENEW ∨
    qt = DHCPV6_REBIND ∨ qt = DHCPV6_CONFIRM) ∧
    (rt = DHCPV6_NOTYPE ∨ rt = DHCPV6_REPLY))

/-- Key invariant stated by the claim: the family is one of the two
supported ones and the message pair is in the validated table. -/
def keyInvariant (k : DurationKey) : Prop :=
  (k.family = AF_INET ∧ v4PairOk k.queryType k.responseType) ∨
  (k.family = AF_INET6 ∧ v6PairOk k.queryType k.responseType)

instance (k : DurationKey) : Decidable (keyInvariant k) := by
  unfold keyInvariant v4PairOk v6PairOk
  infer_instance

/-- Heap of `MonitoredDuration` cells; a `MonitoredDurationPtr`
(`boost::shared_ptr<MonitoredDuration>`) is an index into it.  `new`
appends a cell; dereferencing an index beyond the heap never happens in
the modelled code paths (reads use `heapGet` with a junk default). -/
abbrev Heap := List MonitoredDuration

/-- Junk cell returned when dereferencing outside the heap (never reached
by the modelled code). -/
def junkDuration : MonitoredDuration :=
  ⟨⟨0, 0, 0, "", "", 0⟩, 1, none, none⟩

/-- Dereference a pointer. -/
def heapGet (h : Heap) (p : Nat) : MonitoredDuration :=
  List.getD h p junkDuration

/-- Length of the heap, the next fresh pointer. -/
abbrev heapLen (h : Heap) : Nat := List.length h

/-- Allocate a new cell (`new MonitoredDuration(...)`): the value goes at
the end, the fresh pointer is the old length. -/
def heapAlloc (h : Heap) (v : MonitoredDuration) : Heap := h ++ [v]

/-- Overwrite the cell a pointer designates; models mutating a
`MonitoredDuration` through a returned `MonitoredDurationPtr` (for example
calling `addSample` or `clear` on it). -/
def mutateAt (h : Heap) (p : Nat) (f : MonitoredDuration → MonitoredDuration) :
    Heap :=
  List.set h p (f (heapGet h p))

/-- MonitoredDurationStore data members
(`monitored_duration_store.h`): the protocol family, the interval duration
handed to new records, and the container of records, modelled as the list
of pointers it holds. -/
structure MonitoredDurationStore where
  family : Nat
  intervalDuration : Int
  durations : List Nat
deriving DecidableEq

/-- Modelled from the spec: the container type `MonitoredDurationContainer`
and its `DurationKeyTag` index are declared in
`monitored_duration_store.h`, which is not under `src/`; per the spec the
store is "a set of MonitoredDuration records indexed by DurationKey", so
`index.find(*key)` is modelled as the first stored record whose key equals
the probe under `DurationKey::operator==` (the tuple equality). -/
def findByKey (h : Heap) (ps : List Nat) (key : DurationKey) : Option Nat :=
  List.find? (fun p => DurationKey.eqOp (heapGet h p).key key) ps

/-- MonitoredDurationStore constructor from `monitored_duration_store.cc`
lines 19-25: throws BadValue unless the interval duration is positive;
starts empty. -/
def MonitoredDurationStore.makeStore (family : Nat) (intervalDuration : Int) :
    Except KeaError MonitoredDurationStore :=
  if intervalDuration ≤ 0 then
    Except.error KeaError.badValue
  else
    Except.ok ⟨family, intervalDuration, []⟩

/-- MonitoredDurationStore::addDuration from `monitored_duration_store.cc`
lines 27-65, state-passing (`Heap` and store survive a throw): BadValue on
a null key or a family mismatch; otherwise a new record is built from the
key and the store's interval duration (exceptions there rethrown as
BadValue) and the first sample added when positive; inserting an already
present key throws DuplicateDurationKey leaving the store unchanged (the
freshly built record stays unreachable on the heap); on success the record
is inserted and a copy of it is returned. -/
def MonitoredDurationStore.addDuration (h : Heap)
    (st : MonitoredDurationStore) (key : Option DurationKey)
    (sample now : Int) :
    Except KeaError Nat × Heap × MonitoredDurationStore :=
  match key with
  | none => (Except.error KeaError.badValue, h, st)
  | some k =>
    if k.family ≠ st.family then
      (Except.error KeaError.badValue, h, st)
    else
      match MonitoredDuration.make k st.intervalDuration with
      | Except.error _ => (Except.error KeaError.badValue, h, st)
      | Except.ok m0 =>
        let mond := if sample > 0 then (m0.addSample sample now).1 else m0
        match findByKey h st.durations k with
        | some _ =>
            (Except.error KeaError.duplicateDurationKey, heapAlloc h mond, st)
        | none =>
            let h1 := heapAlloc h mond
            let st1 := { st with durations := st.durations ++ [heapLen h] }
            (Except.ok (heapLen h1), heapAlloc h1 mond, st1)

/-- MonitoredDurationStore::getDuration from `monitored_duration_store.cc`
lines 67-87: BadValue on a null key; otherwise the matching record is
looked up and a freshly allocated copy of it is returned (an empty pointer
when there is none).  The store is not touched. -/
def MonitoredDurationStore.getDuration (h : Heap)
    (st : MonitoredDurationStore) (key : Option DurationKey) :
    Except KeaError (Option Nat) × Heap × MonitoredDurationStore :=
  match key with
  | none => (Except.error KeaError.badValue, h, st)
  | some k =>
    match findByKey h st.durations k with
    | none => (Except.ok none, h, st)
    | some q =>
        (Except.ok (some (heapLen h)), heapAlloc h (heapGet h q), st)

/-- MonitoredDurationStore::getAll from `monitored_duration_store.cc`
lines 125-135: a freshly allocated copy of every stored record, in index
order; the store is not touched. -/
def MonitoredDurationStore.getAll (h : Heap) (st : MonitoredDurationStore) :
    List Nat × Heap × MonitoredDurationStore :=
  ((List.range st.durations.length).map (fun i => heapLen h + i),
   h ++ st.durations.map (fun q => heapGet h q),
   st)

/-- MonitoredDurationStore::updateDuration from
`monitored_duration_store.cc` lines 89-105: BadValue on a null pointer,
InvalidOperation when no record with the argument's key is stored,
otherwise the stored record is replaced by a freshly allocated copy of the
argument. -/
def MonitoredDurationStore.updateDuration (h : Heap)
    (st : MonitoredDurationStore) (duration : Option Nat) :
    Except KeaError Unit × Heap × MonitoredDurationStore :=
  match duration with
  | none => (Except.error KeaError.badValue, h, st)
  | some p =>
    match findByKey h st.durations (heapGet h p).key with
    | none => (Except.error KeaError.invalidOperation, h, st)
    | some q =>
        (Except.ok (), heapAlloc h (heapGet h p),
         { st with durations :=
             st.durations.map (fun r => if r = q then heapLen h else r) })

/-- MonitoredDurationStore::deleteDuration from
`monitored_duration_store.cc` lines 107-123: BadValue on a null key; a
missing key is a no-op; otherwise the found record is erased. -/
def MonitoredDurationStore.deleteDuration (h : Heap)
    (st : MonitoredDurationStore) (key : Option DurationKey) :
    Except KeaError Unit × Heap × MonitoredDurationStore :=
  match key with
  | none => (Except.error KeaError.badValue, h, st)
  | some k =>
    match findByKey h st.durations k with
    | none => (Except.ok (), h, st)
    | some q =>
        (Except.ok (), h, { st with durations := st.durations.erase q })

/-- MonitoredDurationStore::clear from `monitored_duration_store.cc` lines
137-140: unconditionally throws NotImplemented. -/
def MonitoredDurationStore.clearStore (h : Heap)
    (st : MonitoredDurationStore) :
    Except KeaError Unit × Heap × MonitoredDurationStore :=
  (Except.error KeaError.notImplemented, h, st)

/-- Example key used by concrete witnesses: a valid v4
DISCOVER-OFFER key. -/
def exKey : DurationKey :=
  ⟨AF_INET, DHCPDISCOVER, DHCPOFFER, "socket_received", "process_completed", 70⟩

/-- Example record used by concrete witnesses: `exKey` with a 60 s
(60000000 us) interval and no data yet. -/
def exDuration : MonitoredDuration := ⟨exKey, 60000000, none, none⟩

/-- Example store used by concrete witnesses: a v4 store holding the
single record `exDuration` at heap cell 0. -/
def exStore : MonitoredDurationStore := ⟨AF_INET, 60000000, [0]⟩

/-- Modelled from the spec: `isc::data::Element` (`cc/data.h`, not under
`src/`) is a typed JSON value whose typed accessors fail with TypeError on
a value of another type; only the shapes the statistics channel needs are
included (an integer stands in for the numeric types). -/
inductive Element where
  | intE (i : Int)
  | strE (s : String)
  | listE (xs : List Element)
  | mapE (entries : List (String × Element))

/-- Modelled from the spec: `Element::get(name)` on a map returns the
named member or a null pointer; on any other element it throws
TypeError. -/
def Element.getMem : Element → String → Except KeaError (Option Element)
  | Element.mapE entries, name =>
      Except.ok ((entries.find? (fun kv => kv.1 == name)).map Prod.snd)
  | _, _ => Except.error KeaError.typeError

/-- Modelled from the spec: `getType() == Element::string`. -/
def Element.isStrType : Element → Bool
  | Element.strE _ => true
  | _ => false

/-- Modelled from the spec: `Element::stringValue()` returns the string,
throwing TypeError on any other element type. -/
def Element.strValue : Element → Except KeaError String
  | Element.strE s => Except.ok s
  | _ => Except.error KeaError.typeError

/-- Control-channel answer: the spec's
`(result: 0 or 1, text, arguments)` response shape
(`createAnswer` lives in `config/command_interpreter`, not under
`src/`). -/
structure Answer where
  result : Int
  text : Option String
  arguments : Option Element

/-- Modelled from the spec: `createAnswer(code, text)`. -/
def createAnswerTxt (result : Int) (text : String) : Answer :=
  ⟨result, some text, none⟩

/-- Modelled from the spec: `createAnswer(code, arguments)`. -/
def createAnswerArgs (result : Int) (args : Element) : Answer :=
  ⟨result, none, some args⟩

/-- Observation value, one of the four statistic types of
`observation.h` (`STAT_INTEGER`, `STAT_FLOAT`, `STAT_DURATION`,
`STAT_STRING`); the double value is modelled opaquely by an integer, the
duration by microseconds. -/
inductive StatValue where
  | intV (v : Nat)
  | floatV (bits : Int)
  | durV (d : Int)
  | strV (s : String)
deriving Repr, DecidableEq

/-- Observation (`observation.h`): a named, typed statistic holding its
latest sample (value and timestamp). -/
structure Observation where
  name : String
  value : StatValue
  timestamp : Int
deriving Repr, DecidableEq

/-- Observation::reset per `observation.h` lines 172-175: sets the
statistic to the neutral value of its type (0, 0.0, zero duration or
""). -/
def Observation.resetObs (o : Observation) : Observation :=
  { o with value :=
      match o.value with
      | StatValue.intV _ => StatValue.intV 0
      | StatValue.floatV _ => StatValue.floatV 0
      | StatValue.durV _ => StatValue.durV 0
      | StatValue.strV _ => StatValue.strV "" }

/-- Modelled from the spec: a sample value rendered as a JSON element
(`observation.cc` is not under `src/`). -/
def statValueToElement : StatValue → Element
  | StatValue.intV v => Element.intE (Int.ofNat v)
  | StatValue.floatV b => Element.intE b
  | StatValue.durV d => Element.strE (toString d)
  | StatValue.strV s => Element.strE s

/-- Modelled from the spec: `Observation::getJSON` renders the statistic
as `[[value, timestamp]]` (`observation.cc` is not under `src/`). -/
def Observation.getJSON (o : Observation) : Element :=
  Element.listE [Element.listE [statValueToElement o.value,
                                Element.strE (toString o.timestamp)]]

/-- StatsMgr state: the global context's name-to-observation map
(`stats_mgr.h` / `StatContext`), modelled as an association list. -/
structure StatsMgr where
  stats : List (String × Observation)

/-- StatsMgr::get from `stats_mgr.cc` lines 113-120: a map holding the
named observation's JSON when it exists, empty otherwise. -/
def StatsMgr.getStat (m : StatsMgr) (name : String) : Element :=
  match m.stats.find? (fun kv => kv.1 == name) with
  | some kv => Element.mapE [(name, kv.2.getJSON)]
  | none => Element.mapE []

/-- StatsMgr::getAll from `stats_mgr.cc` lines 122-133: every statistic's
JSON keyed by name. -/
def StatsMgr.getAllStats (m : StatsMgr) : Element :=
  Element.mapE (m.stats.map (fun kv => (kv.1, kv.2.getJSON)))

/-- StatsMgr::reset from `stats_mgr.cc` lines 95-103: resets the named
observation to its neutral value and returns true, or returns false when
it does not exist. -/
def StatsMgr.resetStat (m : StatsMgr) (name : String) : Bool × StatsMgr :=
  match m.stats.find? (fun kv => kv.1 == name) with
  | some _ =>
      (true, ⟨m.stats.map
        (fun kv => if kv.1 == name then (kv.1, kv.2.resetObs) else kv)⟩)
  | none => (false, m)

/-- StatsMgr::del from `stats_mgr.cc` lines 105-107 (via
`StatContext::del`): removes the named observation, reporting whether it
was there. -/
def StatsMgr.delStat (m : StatsMgr) (name : String) : Bool × StatsMgr :=
  match m.stats.find? (fun kv => kv.1 == name) with
  | some _ => (true, ⟨m.stats.filter (fun kv => !(kv.1 == name))⟩)
  | none => (false, m)

/-- StatsMgr::resetAll from `stats_mgr.cc` lines 135-143: resets every
observation. -/
def StatsMgr.resetAllStats (m : StatsMgr) : StatsMgr :=
  ⟨m.stats.map (fun kv => (kv.1, kv.2.resetObs))⟩

/-- StatsMgr::setMaxSampleAge from `stats_mgr.cc` lines 86-89: throws
NotImplemented for every name and duration, touching nothing. -/
def StatsMgr.setMaxSampleAge (m : StatsMgr) (_name : String)
    (_duration : Int) : Except KeaError Unit × StatsMgr :=
  (Except.error KeaError.notImplemented, m)

/-- StatsMgr::setMaxSampleCount from `stats_mgr.cc` lines 91-93: throws
NotImplemented for every name and count, touching nothing. -/
def StatsMgr.setMaxSampleCount (m : StatsMgr) (_name : String)
    (_count : Nat) : Except KeaError Unit × StatsMgr :=
  (Except.error KeaError.notImplemented, m)

/-- StatsMgr::statisticGetHandler from `stats_mgr.cc` lines 149-166:
error answers for missing params, missing name or a non-string name;
otherwise a success answer carrying `get(name)` (empty when the statistic
does not exist). -/
def StatsMgr.statisticGetHandler (m : StatsMgr) (params : Option Element) :
    Except KeaError Answer :=
  match params with
  | none => Except.ok (createAnswerTxt CONTROL_RESULT_ERROR
      "Missing mandatory \x27name\x27 parameter.")
  | some p =>
    match p.getMem "name" with
    | Except.error e => Except.error e
    | Except.ok none => Except.ok (createAnswerTxt CONTROL_RESULT_ERROR
        "Missing mandatory \x27name\x27 parameter.")
    | Except.ok (some sn) =>
      if sn.isStrType = false then
        Except.ok (createAnswerTxt CONTROL_RESULT_ERROR
          "\x27name\x27 parameter expected to be a string.")
      else
        match sn.strValue with
        | Except.error e => Except.error e
        | Except.ok s =>
            Except.ok (createAnswerArgs CONTROL_RESULT_SUCCESS (m.getStat s))

/-- StatsMgr::statisticResetHandler from `stats_mgr.cc` lines 168-192:
error answers for missing params, missing name or a non-string name;
otherwise resets the statistic, answering success, or an error answer when
it does not exist. -/
def StatsMgr.statisticResetHandler (m : StatsMgr) (params : Option Element) :
    Except KeaError Answer × StatsMgr :=
  match params with
  | none => (Except.ok (createAnswerTxt CONTROL_RESULT_ERROR
      "Missing mandatory \x27name\x27 parameter."), m)
  | some p =>
    match p.getMem "name" with
    | Except.error e => (Except.error e, m)
    | Except.ok none => (Except.ok (createAnswerTxt CONTROL_RESULT_ERROR
        "Missing mandatory \x27name\x27 parameter."), m)
    | Except.ok (some sn) =>
      if sn.isStrType = false then
        (Except.ok (createAnswerTxt CONTROL_RESULT_ERROR
          "\x27name\x27 parameter expected to be a string."), m)
      else
        match sn.strValue with
        | Except.error e => (Except.error e, m)
        | Except.ok s =>
          let r := m.resetStat s
          if r.1 then
            (Except.ok (createAnswerTxt CONTROL_RESULT_SUCCESS
              ("Statistic \x27" ++ s ++ "\x27 reset.")), r.2)
          else
            (Except.ok (createAnswerTxt CONTROL_RESULT_ERROR
              ("No \x27" ++ s ++ "\x27 statistic found")), r.2)

/-- StatsMgr::statisticRemoveHandler from `stats_mgr.cc` lines 194-214:
error answers for missing params or a missing name, but — unlike the get
and reset handlers — no check that the name is a string: `stringValue()`
is called directly, so a non-string name propagates TypeError. -/
def StatsMgr.statisticRemoveHandler (m : StatsMgr) (params : Option Element) :
    Except KeaError Answer × StatsMgr :=
  match params with
  | none => (Except.ok (createAnswerTxt CONTROL_RESULT_ERROR
      "Missing mandatory \x27name\x27 parameter."), m)
  | some p =>
    match p.getMem "name" with
    | Except.error e => (Except.error e, m)
    | Except.ok none => (Except.ok (createAnswerTxt CONTROL_RESULT_ERROR
        "Missing mandatory \x27name\x27 parameter."), m)
    | Except.ok (some sn) =>
      match sn.strValue with
      | Except.error e => (Except.error e, m)
      | Except.ok s =>
        let r := m.delStat s
        if r.1 then
          (Except.ok (createAnswerTxt CONTROL_RESULT_SUCCESS
            ("Statistic \x27" ++ s ++ "\x27 removed.")), r.2)
        else
          (Except.ok (createAnswerTxt CONTROL_RESULT_ERROR
            ("No \x27" ++ s ++ "\x27 statistic found")), r.2)

/-- StatsMgr::statisticGetAllHandler from `stats_mgr.cc` lines 224-229:
ignores the parameters and answers success with every statistic. -/
def StatsMgr.statisticGetAllHandler (m : StatsMgr)
    (_params : Option Element) : Except KeaError Answer :=
  Except.ok (createAnswerArgs CONTROL_RESULT_SUCCESS m.getAllStats)

/-- StatsMgr::statisticResetAllHandler from `stats_mgr.cc` lines 231-237:
ignores the parameters, resets every statistic and answers success. -/
def StatsMgr.statisticResetAllHandler (m : StatsMgr)
    (_params : Option Element) : Except KeaError Answer × StatsMgr :=
  (Except.ok (createAnswerTxt CONTROL_RESULT_SUCCESS
    "All statistics reset to neutral values."), m.resetAllStats)

/-- StatsMgr::statisticRemoveAllHandler from `stats_mgr.cc` lines
216-222: ignores the parameters, removes every statistic and answers
success. -/
def StatsMgr.statisticRemoveAllHandler (_m : StatsMgr)
    (_params : Option Element) : Except KeaError Answer × StatsMgr :=
  (Except.ok (createAnswerTxt CONTROL_RESULT_SUCCESS
    "All statistics removed."), ⟨[]⟩)

/-- Example observation used by concrete witnesses: an integer statistic
named "pkt4-received". -/
def exObservation : Observation :=
  ⟨"pkt4-received", StatValue.intV 42, 1700000000⟩

/-- Example statistics manager used by concrete witnesses: holds only
`exObservation`. -/
def exStatsMgr : StatsMgr := ⟨[("pkt4-received", exObservation)]⟩

lemma validateMessagePair_ok_iff (f qt rt : Nat) :
    DurationKey.validateMessagePair f qt rt = Except.ok () ↔
      ((f = AF_INET ∧ v4PairOk qt rt) ∨ (f ≠ AF_INET ∧ v6PairOk qt rt)) := by
  unfold DurationKey.validateMessagePair
  split_ifs with h1 h2 h3 h4 h5 h6 h7 h8 h9 h10 h11 h12 h13 <;>
    simp_all [v4PairOk, v6PairOk, AF_INET, AF_INET6, DHCP_NOTYPE, DHCPDISCOVER,
      DHCPOFFER, DHCPREQUEST, DHCPACK, DHCPNAK, DHCPINFORM, DHCPV6_NOTYPE,
      DHCPV6_SOLICIT, DHCPV6_ADVERTISE, DHCPV6_REQUEST, DHCPV6_CONFIRM,
      DHCPV6_RENEW, DHCPV6_REBIND, DHCPV6_REPLY]

lemma validateMessagePair_cases (f qt rt : Nat) :
    DurationKey.validateMessagePair f qt rt = Except.ok () ∨
      DurationKey.validateMessagePair f qt rt =
        Except.error KeaError.badValue := by
  unfold DurationKey.validateMessagePair
  split_ifs <;> simp

lemma keyInvariant_mk (f qt rt : Nat) (sel eel : String) (sid : Nat) :
    keyInvariant ⟨f, qt, rt, sel, eel, sid⟩ ↔
      ((f = AF_INET ∧ v4PairOk qt rt) ∨ (f = AF_INET6 ∧ v6PairOk qt rt)) :=
  Iff.rfl

lemma make_ok_iff (f qt rt : Nat) (sel eel : String) (sid : Nat) :
    DurationKey.make f qt rt sel eel sid =
        Except.ok ⟨f, qt, rt, sel, eel, sid⟩ ↔
      keyInvariant ⟨f, qt, rt, sel, eel, sid⟩ := by
  rw [keyInvariant_mk f qt rt sel eel sid]
  by_cases hf : f ≠ AF_INET ∧ f ≠ AF_INET6
  · unfold DurationKey.make
    rw [if_pos hf]
    simp [hf.1, hf.2]
  · have hor : f = AF_INET ∨ f = AF_INET6 := by
      rcases not_and_or.mp hf with h | h
      · exact Or.inl (not_not.mp h)
      · exact Or.inr (not_not.mp h)
    unfold DurationKey.make
    rw [if_neg hf]
    rcases validateMessagePair_cases f qt rt with hv | hv <;> simp only [hv]
    · have htab := (validateMessagePair_ok_iff f qt rt).mp hv
      constructor
      · intro _
        rcases htab with ⟨h2, hv4⟩ | ⟨hne, hv6⟩
        · exact Or.inl ⟨h2, hv4⟩
        · rcases hor with h2 | h10
          · exact absurd h2 hne
          · exact Or.inr ⟨h10, hv6⟩
      · intro _
        trivial
    · constructor
      · intro h
        exact absurd h (by simp)
      · intro hk
        exfalso
        have hok : DurationKey.validateMessagePair f qt rt = Except.ok () := by
          refine (validateMessagePair_ok_iff f qt rt).mpr ?_
          rcases hk with ⟨h2, hv4⟩ | ⟨h10, hv6⟩
          · exact Or.inl ⟨h2, hv4⟩
          · refine Or.inr ⟨?_, hv6⟩
            rw [h10]
            simp [AF_INET, AF_INET6]
        rw [hok] at hv
        exact absurd hv (by simp)

lemma make_cases (f qt rt : Nat) (sel eel : String) (sid : Nat) :
    DurationKey.make f qt rt sel eel sid =
        Except.ok ⟨f, qt, rt, sel, eel, sid⟩ ∨
      DurationKey.make f qt rt sel eel sid =
        Except.error KeaError.badValue := by
  unfold DurationKey.make
  rcases validateMessagePair_cases f qt rt with hv | hv <;>
    simp only [hv] <;> split_ifs <;> simp

lemma addSample_no_current (md : MonitoredDuration) (sample now : Int)
    (h : md.currentInterval = none) :
    md.addSample sample now =
      ({ md with
           currentInterval :=
             some ((DurationDataInterval.init now).addDuration sample) },
       false) := by
  obtain ⟨key, L, cur, pi⟩ := md
  simp only [MonitoredDuration.currentInterval] at h
  subst h
  rfl

lemma addSample_rotate (md : MonitoredDuration) (ci : DurationDataInterval)
    (sample now : Int) (h : md.currentInterval = some ci)
    (hgt : now - ci.startTime > md.intervalDuration) :
    md.addSample sample now =
      ({ md with
           previousInterval := some ci,
           currentInterval :=
             some ((DurationDataInterval.init now).addDuration sample) },
       true) := by
  obtain ⟨key, L, cur, pi⟩ := md
  simp only [MonitoredDuration.currentInterval] at h
  simp only [MonitoredDuration.intervalDuration] at hgt
  subst h
  simp only [MonitoredDuration.addSample, if_pos hgt]

lemma addSample_within (md : MonitoredDuration) (ci : DurationDataInterval)
    (sample now : Int) (h : md.currentInterval = some ci)
    (hle : ¬ now - ci.startTime > md.intervalDuration) :
    md.addSample sample now =
      ({ md with currentInterval := some (ci.addDuration sample) }, false) := by
  obtain ⟨key, L, cur, pi⟩ := md
  simp only [MonitoredDuration.currentInterval] at h
  simp only [MonitoredDuration.intervalDuration] at hle
  subst h
  simp only [MonitoredDuration.addSample, if_neg hle]

lemma addSample_key (md : MonitoredDuration) (sample now : Int) :
    ((md.addSample sample now).1).key = md.key := by
  obtain ⟨key, L, ci, pi⟩ := md
  cases ci
  · rfl
  · simp only [MonitoredDuration.addSample]
    split_ifs <;> rfl

lemma make_md_pos (k : DurationKey) (L : Int) (hL : 0 < L) :
    MonitoredDuration.make k L = Except.ok ⟨k, L, none, none⟩ := by
  unfold MonitoredDuration.make
  rw [if_neg (by omega)]

lemma heapGet_append_lt (h : Heap) (t : List MonitoredDuration) (p : Nat)
    (hp : p < heapLen h) : heapGet (h ++ t) p = heapGet h p := by
  simp only [heapGet, List.getD_eq_getElem?_getD,
    List.getElem?_append_left hp]

lemma heapGet_alloc_self (h : Heap) (v : MonitoredDuration) :
    heapGet (heapAlloc h v) (heapLen h) = v := by
  simp [heapGet, heapAlloc, heapLen, List.getD_eq_getElem?_getD]

lemma heapGet_alloc_lt (h : Heap) (v : MonitoredDuration) (p : Nat)
    (hp : p < heapLen h) : heapGet (heapAlloc h v) p = heapGet h p :=
  heapGet_append_lt h [v] p hp

lemma heapGet_set_ne (h : Heap) (p q : Nat) (v : MonitoredDuration)
    (hne : p ≠ q) : heapGet (List.set h p v) q = heapGet h q := by
  simp [heapGet, List.getD_eq_getElem?_getD, List.getElem?_set_ne hne]

lemma mutateAt_frame (h : Heap) (p q : Nat)
    (f : MonitoredDuration → MonitoredDuration) (hne : p ≠ q) :
    heapGet (mutateAt h p f) q = heapGet h q :=
  heapGet_set_ne h p q _ hne

lemma heapGet_append_add (h : Heap) (l : List MonitoredDuration) (i : Nat) :
    heapGet (h ++ l) (heapLen h + i) = List.getD l i junkDuration := by
  simp [heapGet, heapLen, List.getD_eq_getElem?_getD,
    List.getElem?_append_right (Nat.le_add_right _ _)]

/-- C1: the claim states that `DurationKey::operator<` is the lexicographic
strict ordering over the key tuple, consistent with `operator==` (exactly
one of `a < b`, `b < a`, `a == b`).  The code's `operator<` is a plain
disjunction with no equality guards, so for the two validly constructed
keys `(AF_INET, DISCOVER, OFFER, "st", "en", 0)` and
`(AF_INET, REQUEST, NOTYPE, "st", "en", 0)` both `a < b` and `b < a` hold
while `a == b` is false — the ordering is not lexicographic and not even
asymmetric. -/
theorem c1_operator_lt_not_lexicographic :
    DurationKey.make AF_INET DHCPDISCOVER DHCPOFFER "st" "en" 0 =
      Except.ok ⟨AF_INET, DHCPDISCOVER, DHCPOFFER, "st", "en", 0⟩ ∧
    DurationKey.make AF_INET DHCPREQUEST DHCP_NOTYPE "st" "en" 0 =
      Except.ok ⟨AF_INET, DHCPREQUEST, DHCP_NOTYPE, "st", "en", 0⟩ ∧
    DurationKey.ltOp ⟨AF_INET, DHCPDISCOVER, DHCPOFFER, "st", "en", 0⟩
      ⟨AF_INET, DHCPREQUEST, DHCP_NOTYPE, "st", "en", 0⟩ = true ∧
    DurationKey.ltOp ⟨AF_INET, DHCPREQUEST, DHCP_NOTYPE, "st", "en", 0⟩
      ⟨AF_INET, DHCPDISCOVER, DHCPOFFER, "st", "en", 0⟩ = true ∧
    DurationKey.eqOp ⟨AF_INET, DHCPDISCOVER, DHCPOFFER, "st", "en", 0⟩
      ⟨AF_INET, DHCPREQUEST, DHCP_NOTYPE, "st", "en", 0⟩ = false := by
  refine ⟨rfl, rfl, ?_, ?_, ?_⟩ <;> rfl

/-- C2: `MonitoredDuration::addSample` opens a current interval at `now`
and reports nothing when no current interval exists; when
`now - current.start` exceeds the interval length it rotates
(previous ← current, fresh current at `now`) and reports "report-due";
otherwise it only updates the current interval.  For samples at times
`t0`, `t0+e`, `t0+L+e` with `0 < e < L`, only the third sample rotates,
after which the previous interval holds the first two samples
(occurrence count 2, their total) and the current interval holds one. -/
theorem c2_addSample_rotation :
    (∀ (md : MonitoredDuration) (sample now : Int),
        md.currentInterval = none →
        md.addSample sample now =
          ({ md with
               currentInterval :=
                 some ((DurationDataInterval.init now).addDuration sample) },
           false)) ∧
    (∀ (md : MonitoredDuration) (ci : DurationDataInterval) (sample now : Int),
        md.currentInterval = some ci →
        now - ci.startTime > md.intervalDuration →
        md.addSample sample now =
          ({ md with
               previousInterval := some ci,
               currentInterval :=
                 some ((DurationDataInterval.init now).addDuration sample) },
           true)) ∧
    (∀ (md : MonitoredDuration) (ci : DurationDataInterval) (sample now : Int),
        md.currentInterval = some ci →
        ¬ now - ci.startTime > md.intervalDuration →
        md.addSample sample now =
          ({ md with currentInterval := some (ci.addDuration sample) },
           false)) ∧
    (∀ (key : DurationKey) (L t0 e s1 s2 s3 : Int),
        0 < e → e < L →
        (((⟨key, L, none, none⟩ : MonitoredDuration).addSample s1 t0).2 =
            false) ∧
        ((((⟨key, L, none, none⟩ : MonitoredDuration).addSample s1 t0).1.addSample
            s2 (t0 + e)).2 = false) ∧
        (((((⟨key, L, none, none⟩ : MonitoredDuration).addSample s1 t0).1.addSample
            s2 (t0 + e)).1.addSample s3 (t0 + L + e)).2 = true) ∧
        (((((⟨key, L, none, none⟩ : MonitoredDuration).addSample s1 t0).1.addSample
            s2 (t0 + e)).1.addSample s3 (t0 + L + e)).1.previousInterval.map
            DurationDataInterval.occurrences = some 2) ∧
        (((((⟨key, L, none, none⟩ : MonitoredDuration).addSample s1 t0).1.addSample
            s2 (t0 + e)).1.addSample s3 (t0 + L + e)).1.previousInterval.map
            DurationDataInterval.totalDuration = some (s1 + s2)) ∧
        (((((⟨key, L, none, none⟩ : MonitoredDuration).addSample s1 t0).1.addSample
            s2 (t0 + e)).1.addSample s3 (t0 + L + e)).1.currentInterval.map
            DurationDataInterval.occurrences = some 1)) := by
  refine ⟨addSample_no_current, addSample_rotate, addSample_within, ?_⟩
  intro key L t0 e s1 s2 s3 he heL
  have h1 := addSample_no_current ⟨key, L, none, none⟩ s1 t0 rfl
  rw [h1]
  have h2 := addSample_within
      ⟨key, L, some ((DurationDataInterval.init t0).addDuration s1), none⟩
      ((DurationDataInterval.init t0).addDuration s1) s2 (t0 + e) rfl
      (by
        simp only [MonitoredDuration.intervalDuration,
          DurationDataInterval.init, DurationDataInterval.addDuration]
        omega)
  rw [h2]
  have h3 := addSample_rotate
      ⟨key, L,
       some (((DurationDataInterval.init t0).addDuration s1).addDuration s2),
       none⟩
      (((DurationDataInterval.init t0).addDuration s1).addDuration s2)
      s3 (t0 + L + e) rfl
      (by
        simp only [MonitoredDuration.intervalDuration,
          DurationDataInterval.init, DurationDataInterval.addDuration]
        omega)
  rw [h3]
  refine ⟨rfl, rfl, rfl, rfl, ?_, rfl⟩
  simp [DurationDataInterval.init, DurationDataInterval.addDuration]

/-- C2 witness: the rotation scenario at `t0 = 0`, `e = 1`, `L = 2` with
sample values 10, 20, 30. -/
theorem c2_addSample_rotation_witness :
    (((((⟨⟨AF_INET, DHCPDISCOVER, DHCPOFFER, "st", "en", 0⟩, 2, none, none⟩ :
        MonitoredDuration).addSample 10 0).1.addSample
        20 (0 + 1)).1.addSample 30 (0 + 2 + 1)).1.previousInterval.map
        DurationDataInterval.occurrences = some 2) ∧
    (((((⟨⟨AF_INET, DHCPDISCOVER, DHCPOFFER, "st", "en", 0⟩, 2, none, none⟩ :
        MonitoredDuration).addSample 10 0).1.addSample
        20 (0 + 1)).1.addSample 30 (0 + 2 + 1)).1.currentInterval.map
        DurationDataInterval.occurrences = some 1) :=
  ⟨(c2_addSample_rotation.2.2.2 ⟨AF_INET, DHCPDISCOVER, DHCPOFFER, "st", "en", 0⟩
      2 0 1 10 20 30 (by decide) (by decide)).2.2.2.1,
   (c2_addSample_rotation.2.2.2 ⟨AF_INET, DHCPDISCOVER, DHCPOFFER, "st", "en", 0⟩
      2 0 1 10 20 30 (by decide) (by decide)).2.2.2.2.2⟩

/-- C7: `DurationDataInterval::getAverageDuration` returns zero when the
occurrence count is zero and the total duration divided by the count (C++
truncating integer division) when the count is positive. -/
theorem c7_average_duration :
    ∀ i : DurationDataInterval,
      (i.occurrences = 0 → i.getAverageDuration = 0) ∧
      (0 < i.occurrences →
        i.getAverageDuration =
          Int.tdiv i.totalDuration (Int.ofNat i.occurrences)) := by
  intro i
  constructor
  · intro h
    simp [DurationDataInterval.getAverageDuration, h]
  · intro h
    have hne : i.occurrences ≠ 0 := Nat.pos_iff_ne_zero.mp h
    simp [DurationDataInterval.getAverageDuration, hne]

/-- C7 witness: an interval with 2 occurrences totalling 7 microseconds
averages 3 (truncating division); the zero-occurrence interval averages
zero. -/
theorem c7_average_duration_witness :
    DurationDataInterval.getAverageDuration ⟨0, 2, some 3, some 4, 7⟩ = 3 ∧
    DurationDataInterval.getAverageDuration ⟨0, 0, none, none, 0⟩ = 0 :=
  ⟨((c7_average_duration ⟨0, 2, some 3, some 4, 7⟩).2 (by decide)).trans
     (by decide),
   (c7_average_duration ⟨0, 0, none, none, 0⟩).1 rfl⟩

/-- C9: every successfully constructed DurationKey has family `AF_INET` or
`AF_INET6` and a validated (query-type, response-type) pair per family
(`keyInvariant`); every validated combination constructs successfully; any
other combination yields BadValue and constructs nothing. -/
theorem c9_constructed_key_validated :
    ∀ (f qt rt : Nat) (sel eel : String) (sid : Nat),
      (∀ k, DurationKey.make f qt rt sel eel sid = Except.ok k →
          k = ⟨f, qt, rt, sel, eel, sid⟩ ∧ keyInvariant k) ∧
      (keyInvariant ⟨f, qt, rt, sel, eel, sid⟩ →
          DurationKey.make f qt rt sel eel sid =
            Except.ok ⟨f, qt, rt, sel, eel, sid⟩) ∧
      (¬ keyInvariant ⟨f, qt, rt, sel, eel, sid⟩ →
          DurationKey.make f qt rt sel eel sid =
            Except.error KeaError.badValue) := by
  intro f qt rt sel eel sid
  refine ⟨?_, ?_, ?_⟩
  · intro k hk
    rcases make_cases f qt rt sel eel sid with hm | hm
    · rw [hm] at hk
      have hkk : k = ⟨f, qt, rt, sel, eel, sid⟩ := by
        cases hk
        rfl
      subst hkk
      exact ⟨rfl, (make_ok_iff f qt rt sel eel sid).mp hm⟩
    · rw [hm] at hk
      cases hk
  · intro hinv
    exact (make_ok_iff f qt rt sel eel sid).mpr hinv
  · intro hninv
    rcases make_cases f qt rt sel eel sid with hm | hm
    · exact absurd ((make_ok_iff f qt rt sel eel sid).mp hm) hninv
    · exact hm

/-- C9 witness: `(AF_INET6, SOLICIT, REPLY)` constructs and satisfies the
invariant; `(AF_INET, DISCOVER, ACK)` is rejected with BadValue. -/
theorem c9_constructed_key_validated_witness :
    DurationKey.make AF_INET6 DHCPV6_SOLICIT DHCPV6_REPLY "composed" "sent" 3 =
      Except.ok ⟨AF_INET6, DHCPV6_SOLICIT, DHCPV6_REPLY, "composed", "sent", 3⟩ ∧
    DurationKey.make AF_INET DHCPDISCOVER DHCPACK "st" "en" 1 =
      Except.error KeaError.badValue :=
  ⟨(c9_constructed_key_validated AF_INET6 DHCPV6_SOLICIT DHCPV6_REPLY
      "composed" "sent" 3).2.1 (by decide),
   (c9_constructed_key_validated AF_INET DHCPDISCOVER DHCPACK
      "st" "en" 1).2.2 (by decide)⟩

/-- C3: retrieval from the duration store has snapshot semantics.  When
every stored pointer is a live heap cell, `getDuration` returns a freshly
allocated pointer outside the store whose cell copies a stored record, so
mutating through it leaves every stored record's cell unchanged; `getAll`
likewise returns only fresh pointers, each copying the stored record at
the same position, and mutating through any of them leaves the stored
records unchanged.  Neither call changes the store itself; its contents
change only through addDuration, updateDuration and deleteDuration. -/
theorem c3_snapshot_semantics :
    ∀ (h : Heap) (st : MonitoredDurationStore),
      (∀ q ∈ st.durations, q < heapLen h) →
      (∀ (k : DurationKey) (p : Nat) (h' : Heap)
          (st' : MonitoredDurationStore),
          MonitoredDurationStore.getDuration h st (some k) =
            (Except.ok (some p), h', st') →
          st' = st ∧ p ∉ st.durations ∧
          (∃ q ∈ st.durations, heapGet h' p = heapGet h q ∧
            DurationKey.eqOp (heapGet h q).key k = true) ∧
          (∀ (f : MonitoredDuration → MonitoredDuration),
            ∀ q ∈ st.durations,
              heapGet (mutateAt h' p f) q = heapGet h q)) ∧
      (∀ (ps : List Nat) (h' : Heap) (st' : MonitoredDurationStore),
          MonitoredDurationStore.getAll h st = (ps, h', st') →
          st' = st ∧ (∀ p ∈ ps, p ∉ st.durations) ∧
          ps.length = st.durations.length ∧
          (∀ (i : Nat) (hi : i < st.durations.length),
            heapGet h' (heapLen h + i) =
              heapGet h (st.durations.get ⟨i, hi⟩)) ∧
          (∀ p ∈ ps, ∀ (f : MonitoredDuration → MonitoredDuration),
            ∀ q ∈ st.durations,
              heapGet (mutateAt h' p f) q = heapGet h q)) := by
  intro h st hvalid
  constructor
  · intro k p h' st' hget
    have hget' : (match findByKey h st.durations k with
        | none => (Except.ok (none : Option Nat), h, st)
        | some q =>
            (Except.ok (some (heapLen h)), heapAlloc h (heapGet h q), st)) =
        (Except.ok (some p), h', st') := hget
    cases hfind : findByKey h st.durations k with
    | none =>
        rw [hfind] at hget'
        simp at hget'
    | some q =>
        rw [hfind] at hget'
        simp only [Prod.mk.injEq, Except.ok.injEq, Option.some.injEq] at hget'
        obtain ⟨hp, hh, hs⟩ := hget'
        subst hp
        subst hh
        subst hs
        have hqmem : q ∈ st.durations := by
          unfold findByKey at hfind
          exact List.mem_of_find?_eq_some hfind
        have hqkey : DurationKey.eqOp (heapGet h q).key k = true := by
          unfold findByKey at hfind
          simpa using List.find?_some hfind
        refine ⟨rfl, ?_, ⟨q, hqmem, heapGet_alloc_self h (heapGet h q), hqkey⟩,
                ?_⟩
        · intro hmem
          exact absurd (hvalid _ hmem) (lt_irrefl _)
        · intro f q₀ hq₀
          have hlt := hvalid q₀ hq₀
          have hne : heapLen h ≠ q₀ := ne_of_gt hlt
          rw [mutateAt_frame _ _ _ _ hne]
          exact heapGet_append_lt h _ q₀ hlt
  · intro ps h' st' hget
    unfold MonitoredDurationStore.getAll at hget
    simp only [Prod.mk.injEq] at hget
    obtain ⟨hps, hh, hs⟩ := hget
    subst hps
    subst hh
    subst hs
    refine ⟨rfl, ?_, by simp, ?_, ?_⟩
    · intro p hp hmem
      obtain ⟨i, hi, rfl⟩ := List.mem_map.mp hp
      have hlt2 : List.length h + i < List.length h := hvalid _ hmem
      omega
    · intro i hi
      rw [heapGet_append_add]
      have hsome : (st.durations.map (heapGet h))[i]? =
          some (heapGet h (st.durations.get ⟨i, hi⟩)) := by
        rw [List.getElem?_map, List.getElem?_eq_getElem hi]
        rfl
      simp [List.getD_eq_getElem?_getD, hsome]
    · intro p hp f q hq
      obtain ⟨i, hi, rfl⟩ := List.mem_map.mp hp
      have hqlt := hvalid _ hq
      have hqlt2 : q < List.length h := hqlt
      have hne : List.length h + i ≠ q := by omega
      rw [mutateAt_frame _ _ _ _ hne]
      exact heapGet_append_lt h _ q hqlt

/-- C3 witness: in a store holding the single record `exDuration` at heap
cell 0, `getDuration` for its key returns the fresh pointer 1, which is not
a stored pointer, and clearing the returned copy leaves the stored
record's cell unchanged. -/
theorem c3_snapshot_semantics_witness :
    (1 : Nat) ∉ exStore.durations ∧
    heapGet (mutateAt [exDuration, exDuration] 1
        MonitoredDuration.clearIntervals) 0 = heapGet [exDuration] 0 := by
  have h := (c3_snapshot_semantics [exDuration] exStore (by decide)).1
      exKey 1 [exDuration, exDuration] exStore rfl
  exact ⟨h.2.1, h.2.2.2 MonitoredDuration.clearIntervals 0 (by decide)⟩

/-- C6: `MonitoredDurationStore::clear` throws NotImplemented for every
store state and leaves both the heap and the store contents unchanged. -/
theorem c6_store_clear_not_implemented :
    ∀ (h : Heap) (st : MonitoredDurationStore),
      MonitoredDurationStore.clearStore h st =
        (Except.error KeaError.notImplemented, h, st) := by
  intro h st
  rfl

/-- C10: `MonitoredDurationStore::addDuration` rejects bad input
atomically: a null key or a family mismatch throws BadValue, an already
present key throws DuplicateDurationKey, and in each error case the
store's contents are unchanged (the duplicate case only leaves an
unreachable fresh cell on the heap); on success exactly one new record
keyed by the given key is appended to the store and a distinct fresh copy
of it is returned. -/
theorem c10_addDuration_atomic :
    ∀ (h : Heap) (st : MonitoredDurationStore) (sample now : Int),
      0 < st.intervalDuration →
      (∀ q ∈ st.durations, q < heapLen h) →
      (MonitoredDurationStore.addDuration h st none sample now =
          (Except.error KeaError.badValue, h, st)) ∧
      (∀ k : DurationKey, k.family ≠ st.family →
          MonitoredDurationStore.addDuration h st (some k) sample now =
            (Except.error KeaError.badValue, h, st)) ∧
      (∀ k : DurationKey, k.family = st.family →
          (∃ q, findByKey h st.durations k = some q) →
          ∃ h₂ : Heap,
            MonitoredDurationStore.addDuration h st (some k) sample now =
              (Except.error KeaError.duplicateDurationKey, h₂, st)) ∧
      (∀ k : DurationKey, k.family = st.family →
          findByKey h st.durations k = none →
          ∃ (pRet : Nat) (h₂ : Heap),
            MonitoredDurationStore.addDuration h st (some k) sample now =
              (Except.ok pRet, h₂,
               { st with durations := st.durations ++ [heapLen h] }) ∧
            (heapGet h₂ (heapLen h)).key = k ∧
            heapGet h₂ pRet = heapGet h₂ (heapLen h) ∧
            pRet ≠ heapLen h ∧
            pRet ∉ st.durations ++ [heapLen h]) := by
  intro h st sample now hL hvalid
  refine ⟨rfl, ?_, ?_, ?_⟩
  · intro k hk
    simp only [MonitoredDurationStore.addDuration]
    rw [if_pos hk]
  · intro k hk hdup
    obtain ⟨q, hfind⟩ := hdup
    refine ⟨heapAlloc h
        (if sample > 0 then
          ((⟨k, st.intervalDuration, none, none⟩ :
            MonitoredDuration).addSample sample now).1
         else ⟨k, st.intervalDuration, none, none⟩), ?_⟩
    simp only [MonitoredDurationStore.addDuration]
    rw [if_neg (by simp [hk]), make_md_pos k st.intervalDuration hL, hfind]
  · intro k hk hfind
    set mond : MonitoredDuration :=
      (if sample > 0 then
        ((⟨k, st.intervalDuration, none, none⟩ :
          MonitoredDuration).addSample sample now).1
       else ⟨k, st.intervalDuration, none, none⟩) with hmond
    have hkey : mond.key = k := by
      rw [hmond]
      split_ifs
      · rw [addSample_key]
      · rfl
    refine ⟨heapLen (heapAlloc h mond),
            heapAlloc (heapAlloc h mond) mond, ?_, ?_, ?_, ?_, ?_⟩
    · simp only [MonitoredDurationStore.addDuration]
      rw [if_neg (by simp [hk]), make_md_pos k st.intervalDuration hL, hfind]
    · have hlt : heapLen h < heapLen (heapAlloc h mond) := by
        simp [heapAlloc]
      rw [heapGet_alloc_lt (heapAlloc h mond) mond (heapLen h) hlt,
        heapGet_alloc_self]
      exact hkey
    · have hlt : heapLen h < heapLen (heapAlloc h mond) := by
        simp [heapAlloc]
      rw [heapGet_alloc_self (heapAlloc h mond) mond,
        heapGet_alloc_lt (heapAlloc h mond) mond (heapLen h) hlt,
        heapGet_alloc_self]
    · have hlen : heapLen (heapAlloc h mond) = heapLen h + 1 := by
        simp [heapAlloc]
      rw [hlen]
      exact Nat.succ_ne_self (heapLen h)
    · have hlen : heapLen (heapAlloc h mond) = heapLen h + 1 := by
        simp [heapAlloc]
      rw [hlen]
      intro hmem
      rcases List.mem_append.mp hmem with hin | hin
      · have := hvalid _ hin
        omega
      · simp at hin

/-- C10 witness: adding `exKey` with first sample 5 at time 100 to an
empty v4 store succeeds, appending heap cell 0 to the store and returning
the distinct fresh pointer 1 whose cell copies the inserted record. -/
theorem c10_addDuration_atomic_witness :
    ∃ (pRet : Nat) (h₂ : Heap),
      MonitoredDurationStore.addDuration []
          ⟨AF_INET, 60000000, []⟩ (some exKey) 5 100 =
        (Except.ok pRet, h₂,
         { (⟨AF_INET, 60000000, []⟩ : MonitoredDurationStore) with
             durations := ([] : List Nat) ++ [heapLen []] }) ∧
      (heapGet h₂ (heapLen [])).key = exKey ∧
      heapGet h₂ pRet = heapGet h₂ (heapLen []) ∧
      pRet ≠ heapLen ([] : Heap) ∧
      pRet ∉ ([] : List Nat) ++ [heapLen ([] : Heap)] :=
  (c10_addDuration_atomic [] ⟨AF_INET, 60000000, []⟩ 5 100 (by decide)
      (by simp)).2.2.2 exKey rfl rfl

/-- C5: `StatsMgr::setMaxSampleAge` raises NotImplemented for every
statistic name and duration and modifies no statistic. -/
theorem c5_setMaxSampleAge_not_implemented :
    ∀ (m : StatsMgr) (name : String) (duration : Int),
      StatsMgr.setMaxSampleAge m name duration =
        (Except.error KeaError.notImplemented, m) := by
  intro m name duration
  rfl

/-- C4 counterexample: the claim says `setMaxSampleCount` succeeds (does
not report NotImplemented), but at a concrete name and count it raises
NotImplemented. -/
theorem c4_setMaxSampleCount_counterexample :
    StatsMgr.setMaxSampleCount exStatsMgr "pkt4-received" 10 =
      (Except.error KeaError.notImplemented, exStatsMgr) := rfl

/-- C4 (amended): `StatsMgr::setMaxSampleCount`, like `setMaxSampleAge`,
raises NotImplemented for every statistic name and count and modifies no
statistic; no count bound is ever configured. -/
theorem c4_setMaxSampleCount_not_implemented :
    ∀ (m : StatsMgr) (name : String) (count : Nat),
      StatsMgr.setMaxSampleCount m name count =
        (Except.error KeaError.notImplemented, m) := by
  intro m name count
  rfl

lemma strValue_of_not_string (e : Element)
    (h : Element.isStrType e = false) :
    Element.strValue e = Except.error KeaError.typeError := by
  cases e <;> simp_all [Element.isStrType, Element.strValue]

lemma resetStat_fst_iff (m : StatsMgr) (s : String) :
    (m.resetStat s).1 = true ↔
      (m.stats.find? (fun kv => kv.1 == s)).isSome = true := by
  cases hf : m.stats.find? (fun kv => kv.1 == s) <;>
    simp [StatsMgr.resetStat, hf]

lemma delStat_fst_iff (m : StatsMgr) (s : String) :
    (m.delStat s).1 = true ↔
      (m.stats.find? (fun kv => kv.1 == s)).isSome = true := by
  cases hf : m.stats.find? (fun kv => kv.1 == s) <;>
    simp [StatsMgr.delStat, hf]

/-- C8 counterexample: the claim says each of statistic-get, -reset and
-remove turns a non-string name into an error answer and never an
unstructured failure, and answers result 1 when no such statistic exists;
but statistic-remove with a non-string name propagates TypeError (an
unstructured failure), and statistic-get for an unknown name answers
result 0 with empty arguments. -/
theorem c8_handlers_counterexample :
    StatsMgr.statisticRemoveHandler exStatsMgr
        (some (Element.mapE [("name", Element.intE 42)])) =
      (Except.error KeaError.typeError, exStatsMgr) ∧
    StatsMgr.statisticGetHandler exStatsMgr
        (some (Element.mapE [("name", Element.strE "missing-stat")])) =
      Except.ok (createAnswerArgs CONTROL_RESULT_SUCCESS (Element.mapE [])) :=
  ⟨rfl, rfl⟩

/-- C8 (amended): statistic-get and statistic-reset answer result 1 with a
descriptive text for absent params, an absent name or a non-string name;
statistic-remove does so for absent params or an absent name but performs
no string check, so a non-string name propagates TypeError.  With a valid
string name, statistic-get always answers result 0 (empty arguments when
the statistic does not exist) while statistic-reset and statistic-remove
answer result 0 exactly when the statistic exists and result 1 otherwise;
the -all variants accept absent parameters and answer result 0. -/
theorem c8_statistic_handlers :
    ∀ m : StatsMgr,
      (StatsMgr.statisticGetHandler m none =
          Except.ok (createAnswerTxt CONTROL_RESULT_ERROR
            "Missing mandatory \x27name\x27 parameter.") ∧
       StatsMgr.statisticResetHandler m none =
          (Except.ok (createAnswerTxt CONTROL_RESULT_ERROR
            "Missing mandatory \x27name\x27 parameter."), m) ∧
       StatsMgr.statisticRemoveHandler m none =
          (Except.ok (createAnswerTxt CONTROL_RESULT_ERROR
            "Missing mandatory \x27name\x27 parameter."), m)) ∧
      (∀ entries : List (String × Element),
          entries.find? (fun kv => kv.1 == "name") = none →
          StatsMgr.statisticGetHandler m (some (Element.mapE entries)) =
            Except.ok (createAnswerTxt CONTROL_RESULT_ERROR
              "Missing mandatory \x27name\x27 parameter.") ∧
          StatsMgr.statisticResetHandler m (some (Element.mapE entries)) =
            (Except.ok (createAnswerTxt CONTROL_RESULT_ERROR
              "Missing mandatory \x27name\x27 parameter."), m) ∧
          StatsMgr.statisticRemoveHandler m (some (Element.mapE entries)) =
            (Except.ok (createAnswerTxt CONTROL_RESULT_ERROR
              "Missing mandatory \x27name\x27 parameter."), m)) ∧
      (∀ (entries : List (String × Element)) (kv : String × Element),
          entries.find? (fun x => x.1 == "name") = some kv →
          Element.isStrType kv.2 = false →
          StatsMgr.statisticGetHandler m (some (Element.mapE entries)) =
            Except.ok (createAnswerTxt CONTROL_RESULT_ERROR
              "\x27name\x27 parameter expected to be a string.") ∧
          StatsMgr.statisticResetHandler m (some (Element.mapE entries)) =
            (Except.ok (createAnswerTxt CONTROL_RESULT_ERROR
              "\x27name\x27 parameter expected to be a string."), m) ∧
          StatsMgr.statisticRemoveHandler m (some (Element.mapE entries)) =
            (Except.error KeaError.typeError, m)) ∧
      (∀ (entries : List (String × Element)) (kv : String × Element)
          (s : String),
          entries.find? (fun x => x.1 == "name") = some kv →
          kv.2 = Element.strE s →
          StatsMgr.statisticGetHandler m (some (Element.mapE entries)) =
            Except.ok (createAnswerArgs CONTROL_RESULT_SUCCESS
              (m.getStat s)) ∧
          StatsMgr.statisticResetHandler m (some (Element.mapE entries)) =
            (if (m.resetStat s).1 then
               (Except.ok (createAnswerTxt CONTROL_RESULT_SUCCESS
                 ("Statistic \x27" ++ s ++ "\x27 reset.")),
                (m.resetStat s).2)
             else
               (Except.ok (createAnswerTxt CONTROL_RESULT_ERROR
                 ("No \x27" ++ s ++ "\x27 statistic found")),
                (m.resetStat s).2)) ∧
          StatsMgr.statisticRemoveHandler m (some (Element.mapE entries)) =
            (if (m.delStat s).1 then
               (Except.ok (createAnswerTxt CONTROL_RESULT_SUCCESS
                 ("Statistic \x27" ++ s ++ "\x27 removed.")),
                (m.delStat s).2)
             else
               (Except.ok (createAnswerTxt CONTROL_RESULT_ERROR
                 ("No \x27" ++ s ++ "\x27 statistic found")),
                (m.delStat s).2)) ∧
          ((m.resetStat s).1 = true ↔
            (m.stats.find? (fun kv => kv.1 == s)).isSome = true) ∧
          ((m.delStat s).1 = true ↔
            (m.stats.find? (fun kv => kv.1 == s)).isSome = true)) ∧
      (StatsMgr.statisticGetAllHandler m none =
          Except.ok (createAnswerArgs CONTROL_RESULT_SUCCESS
            m.getAllStats) ∧
       StatsMgr.statisticResetAllHandler m none =
          (Except.ok (createAnswerTxt CONTROL_RESULT_SUCCESS
            "All statistics reset to neutral values."), m.resetAllStats) ∧
       StatsMgr.statisticRemoveAllHandler m none =
          (Except.ok (createAnswerTxt CONTROL_RESULT_SUCCESS
            "All statistics removed."), ⟨[]⟩)) := by
  intro m
  refine ⟨⟨rfl, rfl, rfl⟩, ?_, ?_, ?_, ⟨rfl, rfl, rfl⟩⟩
  · intro entries hfind
    refine ⟨?_, ?_, ?_⟩
    · simp [StatsMgr.statisticGetHandler, Element.getMem, hfind]
    · simp [StatsMgr.statisticResetHandler, Element.getMem, hfind]
    · simp [StatsMgr.statisticRemoveHandler, Element.getMem, hfind]
  · intro entries kv hfind hstr
    have hsv := strValue_of_not_string kv.2 hstr
    refine ⟨?_, ?_, ?_⟩
    · simp [StatsMgr.statisticGetHandler, Element.getMem, hfind, hstr]
    · simp [StatsMgr.statisticResetHandler, Element.getMem, hfind, hstr]
    · simp [StatsMgr.statisticRemoveHandler, Element.getMem, hfind, hsv]
  · intro entries kv s hfind hs
    refine ⟨?_, ?_, ?_, resetStat_fst_iff m s, delStat_fst_iff m s⟩
    · simp [StatsMgr.statisticGetHandler, Element.getMem, hfind, hs,
        Element.isStrType, Element.strValue]
    · simp [StatsMgr.statisticResetHandler, Element.getMem, hfind, hs,
        Element.isStrType, Element.strValue]
    · simp [StatsMgr.statisticRemoveHandler, Element.getMem, hfind, hs,
        Element.strValue]

/-- C8 witness: on a manager holding only the statistic "pkt4-received",
statistic-remove with that name answers result 0 and empties the manager,
and statistic-reset with an unknown name answers result 1 and leaves the
manager unchanged. -/
theorem c8_statistic_handlers_witness :
    StatsMgr.statisticRemoveHandler exStatsMgr
        (some (Element.mapE [("name", Element.strE "pkt4-received")])) =
      (Except.ok (createAnswerTxt CONTROL_RESULT_SUCCESS
        "Statistic \x27pkt4-received\x27 removed."), ⟨[]⟩) ∧
    StatsMgr.statisticResetHandler exStatsMgr
        (some (Element.mapE [("name", Element.strE "no-such")])) =
      (Except.ok (createAnswerTxt CONTROL_RESULT_ERROR
        "No \x27no-such\x27 statistic found"), exStatsMgr) := by
  constructor
  · have h := ((c8_statistic_handlers exStatsMgr).2.2.2.1
        [("name", Element.strE "pkt4-received")]
        ("name", Element.strE "pkt4-received") "pkt4-received"
        rfl rfl).2.2.1
    rw [h]
    rfl
  · have h := ((c8_statistic_handlers exStatsMgr).2.2.2.1
        [("name", Element.strE "no-such")]
        ("name", Element.strE "no-such") "no-such" rfl rfl).2.1
    rw [h]
    rfl

end Kea
